import Mathlib

/-
Verification development for the cellscan repository (cell-site survey
sensor).  Each section shallowly embeds one part of the Python source:

* `Radio`   — src/cellscan/radio.py   (AT engine and survey parsing)
* `Upload`  — src/cellscan/upload.py  (bearer bring-up and data upload)
* `Server`  — src/cellscan/server.py  (collection server)
* `Runner`  — src/cellscan/start.py   (coordinator event loop)

Python strings that get split and scanned are modelled as `List Char`;
machine-internal strings that are only compared or carried are `String`.
Fallible code returns `Except`/`Option`; loops bounded by a counter in the
source are embedded with an explicit fuel argument that provably never
runs out for the bound in the source.
-/

namespace Cellscan

/-! ## Radio link: `RadioThread.__atGetResp` (radio.py lines 124-141)

The modem reply is modelled as the list of lines produced by successive
`readline().strip()` calls.  The first line is the echo of the command and
is discarded; subsequent lines are accumulated into `data` (each followed
by a newline, empty lines skipped) until a line equal to `OK` or `ERROR`.
A reply that never terminates makes `readline` block forever: modelled by
the `hang` result. -/

namespace Radio

/-- Result of one `__atGetResp` call: the accumulated data, a
`RadioException` raised on a disallowed `ERROR` terminator, or blocking
forever waiting for a terminator line. -/
inductive AtResult where
  | ok (data : String)
  | protocolError
  | hang
deriving DecidableEq, Repr

/-- The `while line != "OK" and line != "ERROR"` loop of `__atGetResp`:
walks the remaining reply lines accumulating `data += line + '\n'` for
non-empty lines, and stops at the first terminator line, returning the
accumulated data together with the terminator seen. -/
def atReadLoop : List String → String → Option (String × String)
  | [], _ => none
  | l :: rest, data =>
    if l = "OK" ∨ l = "ERROR" then some (data, l)
    else if l ≠ "" then atReadLoop rest (data ++ l ++ "\n")
    else atReadLoop rest data

/-- `RadioThread.__atGetResp(command, errorOK)`: discard the echoed first
line, run the accumulation loop, and raise `RadioException` when the
terminator is `ERROR` and `errorOK` is not set. -/
def atGetResp (errorOK : Bool) : List String → AtResult
  | [] => .hang
  | _echo :: rest =>
    match atReadLoop rest "" with
    | none => .hang
    | some (data, term) =>
      if term = "ERROR" ∧ errorOK = false then .protocolError else .ok data

/-- Concatenation of reply lines exactly as the `data` accumulator builds
it: each line followed by a single newline. -/
def linesJoin : List String → String
  | [] => ""
  | l :: ls => l ++ "\n" ++ linesJoin ls

end Radio

/-! ## Survey parsing: `RadioThread.__networkScan` (radio.py lines 49-100)

The survey response (the string returned by `__atGetResp`) is split on
newlines; each line is classified by its leading token (`earfcn` = 4G,
`uarfcn` = 3G, `arfcn` = 2G — the three `startswith` tests are mutually
exclusive because no prefix is a prefix of another's line), tokenised with
Python `str.split()` (split on whitespace runs, no empty tokens), and the
fields are read at fixed positions.  An out-of-range position raises
`IndexError`, which the per-line `try` turns into a logged warning; lines
with no recognised leading token are skipped silently. -/

/-- One observed base station as emitted by the scanner, all fields kept
as text tokens (the dict built in `__networkScan`). -/
structure SiteScan where
  rx : String
  mcc : String
  mnc : String
  lac : String
  cellid : String
  gen : String
deriving DecidableEq, Repr

namespace Radio

/-- Whether `pat` is a prefix of `s` (Python `str.startswith`). -/
def isPrefixOfChars : List Char → List Char → Bool
  | [], _ => true
  | _ :: _, [] => false
  | a :: as, b :: bs => a = b && isPrefixOfChars as bs

/-- Python `str.split("\n")`: splits at every newline, keeping empty
pieces. -/
def splitOnNL : List Char → List (List Char)
  | [] => [[]]
  | c :: rest =>
    if c = '\n' then [] :: splitOnNL rest
    else
      match splitOnNL rest with
      | [] => [[c]]
      | g :: gs => (c :: g) :: gs

/-- Accumulator loop for Python `str.split()` with no argument: tokens are
maximal runs of non-whitespace characters. -/
def pySplitWsAux : List Char → List Char → List (List Char)
  | [], acc => if acc = [] then [] else [acc.reverse]
  | c :: rest, acc =>
    if c.isWhitespace then
      if acc = [] then pySplitWsAux rest []
      else acc.reverse :: pySplitWsAux rest []
    else pySplitWsAux rest (c :: acc)

/-- Python `line.split()`. -/
def pySplitWs (s : List Char) : List (List Char) := pySplitWsAux s []

/-- Outcome of one line of the survey response inside the per-line `try`
block. -/
inductive LineResult where
  | noMatch
  | parsed (s : SiteScan)
  | parseWarning
deriving DecidableEq, Repr

/-- Per-line classification and field extraction of `__networkScan`.
Field positions are those of the source: 4G (`earfcn`) reads
rx=3, mcc=5, mnc=7, cellid=9, lac=11; 3G (`uarfcn`) reads rx=3, mcc=5,
mnc=7, cellid=12, lac=14; 2G (`arfcn`) reads rx=5, mcc=9, mnc=11, lac=13,
cellid=15.  A missing position is an `IndexError` → `parseWarning`. -/
def parseSurveyLine (line : List Char) : LineResult :=
  let items := pySplitWs line
  if isPrefixOfChars "earfcn".data line then
    match items.get? 3, items.get? 5, items.get? 7, items.get? 9, items.get? 11 with
    | some rx, some mcc, some mnc, some cellid, some lac =>
      .parsed ⟨String.mk rx, String.mk mcc, String.mk mnc, String.mk lac, String.mk cellid, "4g"⟩
    | _, _, _, _, _ => .parseWarning
  else if isPrefixOfChars "uarfcn".data line then
    match items.get? 3, items.get? 5, items.get? 7, items.get? 12, items.get? 14 with
    | some rx, some mcc, some mnc, some cellid, some lac =>
      .parsed ⟨String.mk rx, String.mk mcc, String.mk mnc, String.mk lac, String.mk cellid, "3g"⟩
    | _, _, _, _, _ => .parseWarning
  else if isPrefixOfChars "arfcn".data line then
    match items.get? 5, items.get? 9, items.get? 11, items.get? 13, items.get? 15 with
    | some rx, some mcc, some mnc, some lac, some cellid =>
      .parsed ⟨String.mk rx, String.mk mcc, String.mk mnc, String.mk lac, String.mk cellid, "2g"⟩
    | _, _, _, _, _ => .parseWarning
  else .noMatch

/-- `__networkScan` over an already-received survey response: the parsed
sites in line order, together with the number of warnings logged for
lines that failed to parse. -/
def networkScan (resp : List Char) : List SiteScan × Nat :=
  (splitOnNL resp).foldl
    (fun acc line =>
      match parseSurveyLine line with
      | .noMatch => acc
      | .parsed s => (acc.1 ++ [s], acc.2)
      | .parseWarning => (acc.1, acc.2 + 1))
    ([], 0)

end Radio

/-! ## Persisted records: `Cellsite` (data.py lines 8-26, 42-44)

Coordinates are carried opaquely from the position fix into the row and
from the row into the upload payload; they are modelled as rationals.
`uploaded` defaults to false on insert. -/

/-- One persisted observation row (the peewee `Cellsite` model). -/
structure Cellsite where
  lat : Rat
  lon : Rat
  alt : Rat
  time : String
  rx : String
  mcc : String
  mnc : String
  lac : String
  gen : String
  cellid : String
  uploaded : Bool
deriving DecidableEq, Repr

/-! ## Uploader: `UploadThread` (upload.py)

`__uploadData` reads the unsent rows once, builds one request document,
then runs up to 5 whole connect+send+receive cycles against the server;
the deferred `updateTx` (`update(uploaded=True).where(uploaded==False)`)
executes only on a reply whose `status` is `"OK"`.  The server's
behaviour on attempt `n` is an oracle `srv n`. -/

namespace Upload

/-- What the server round trip of one attempt produced: an `OK` status, a
parsed reply whose status is not `OK` (the code raises and catches
`UploadException`), or an I/O failure anywhere in the cycle
(connect/send/receive/parse raised and was caught). -/
inductive ServerReply where
  | ok
  | badStatus (status : String)
  | ioError
deriving DecidableEq, Repr

/-- One site dict of the request document (`siteList` entry built in
`__uploadData`; the `uploaded` column is not sent). -/
structure SitePayload where
  lat : Rat
  lon : Rat
  alt : Rat
  rx : String
  mcc : String
  mnc : String
  cellid : String
  lac : String
  gen : String
  time : String
deriving DecidableEq, Repr

/-- Payload built from one row. -/
def sitePayload (r : Cellsite) : SitePayload :=
  ⟨r.lat, r.lon, r.alt, r.rx, r.mcc, r.mnc, r.cellid, r.lac, r.gen, r.time⟩

/-- The request document `{action:'upload', device:…, sites:[…]}`. -/
structure UploadRequest where
  action : String
  device : String
  sites : List SitePayload
deriving DecidableEq, Repr

/-- `Cellsite.select().where(Cellsite.uploaded == False)`. -/
def selectUnsent (db : List Cellsite) : List Cellsite :=
  db.filter (fun r => !r.uploaded)

/-- The request document read at the start of `__uploadData`. -/
def uploadRequest (deviceId : String) (db : List Cellsite) : UploadRequest :=
  ⟨"upload", deviceId, (selectUnsent db).map sitePayload⟩

/-- `updateTx.execute()`: `Cellsite.update(uploaded=True).where(Cellsite.uploaded == False)`
applied to the table at execution time. -/
def markUploaded (db : List Cellsite) : List Cellsite :=
  db.map (fun r => if r.uploaded then r else { r with uploaded := true })

/-- Result of one `__uploadData` run: the table afterwards, whether the
update committed (the `return` on `status == 'OK'`), and the value the
`attempts` counter reached. -/
structure UploadOutcome where
  db : List Cellsite
  committed : Bool
  attempts : Nat
deriving DecidableEq, Repr

/-- The `while attempts < 5` retry loop of `__uploadData`.  `attempt` is
the current value of the `attempts` counter and `fuel` the number of loop
iterations still permitted by the `attempts < 5` guard (`uploadData`
starts it at 5).  A non-`ok` reply is caught by the bare `except` inside
the loop and the next iteration begins; exhausting the guard falls out of
the loop, logs, and returns with nothing marked. -/
def uploadLoopAux (srv : Nat → ServerReply) (db : List Cellsite) :
    Nat → Nat → UploadOutcome
  | attempt, 0 => ⟨db, false, attempt⟩
  | attempt, fuel + 1 =>
    match srv attempt with
    | .ok => ⟨markUploaded db, true, attempt + 1⟩
    | _ => uploadLoopAux srv db (attempt + 1) fuel

/-- `UploadThread.__uploadData`. -/
def uploadData (srv : Nat → ServerReply) (db : List Cellsite) : UploadOutcome :=
  uploadLoopAux srv db 0 5

/-- Events the thread may put on the coordinator queue (only
`UploadComplete` is ever produced). -/
inductive QueueEvent where
  | uploadComplete
deriving DecidableEq, Repr

/-- `UploadThread.run`: `__getDataConnection`, `__uploadData`,
`__disableNetworkConnection` inside one `try` whose bare `except` logs;
the `UploadComplete` put happens after the `try` on every path.
`bearerOk` is whether `__getDataConnection` returned normally (when it
throws, `__uploadData` never runs and the table is untouched). -/
def run (bearerOk : Bool) (srv : Nat → ServerReply) (db : List Cellsite) :
    List Cellsite × List QueueEvent :=
  if bearerOk then ((uploadData srv db).db, [.uploadComplete])
  else (db, [.uploadComplete])

/-! ## Bearer bring-up: `__getDataConnection` / `__checkModemBearerStatus`
(upload.py lines 105-120 and 226-241)

Each poll runs `mmcli -b <bearer>` and inspects the output:
`CalledProcessError` is caught and treated as not-connected; otherwise the
output must contain `connected: yes` and the four values are extracted
with the regexes `address: ([0-9.]+)` etc.  A `connected: yes` output on
which a regex finds no match makes `.group(1)` raise `AttributeError`,
which escapes the poll (modelled as `crash`).  The retry loop polls once
before entering, then raises `UploadException` when the `retryCount > 10`
guard fires, reconnecting and polling again otherwise. -/

/-- Transient description of the active data session (`netInfo`). -/
structure BearerInfo where
  ip : String
  prefixLen : String
  gateway : String
  mtu : String
deriving DecidableEq, Repr

/-- Whether `pat` occurs as a contiguous substring (Python `in`). -/
def containsSub (pat : List Char) : List Char → Bool
  | [] => Radio.isPrefixOfChars pat []
  | c :: rest => Radio.isPrefixOfChars pat (c :: rest) || containsSub pat rest

/-- Character class `[\d\.]` of the extraction regexes. -/
def isDigitDot (c : Char) : Bool := c.isDigit || c = '.'

/-- `re.search(pat ++ "([\d\.]+)", s).group(1)`: the first occurrence of
the literal `pat` that is followed by at least one digit-or-dot character,
returning the maximal such run; `none` when the pattern never matches. -/
def reSearchNumTok (pat : List Char) : List Char → Option (List Char)
  | [] => none
  | c :: rest =>
    if Radio.isPrefixOfChars pat (c :: rest)
        && (match (c :: rest).drop pat.length with
            | d :: _ => isDigitDot d
            | [] => false) then
      some (((c :: rest).drop pat.length).takeWhile isDigitDot)
    else reSearchNumTok pat rest

/-- Result of one `__checkModemBearerStatus` call. -/
inductive BearerCheck where
  | info (b : BearerInfo)
  | notConnected
  | crash
deriving DecidableEq, Repr

/-- `__checkModemBearerStatus` applied to one `mmcli -b` invocation:
`.error` is a `CalledProcessError` (caught, returns `None`); on output
text, `connected: yes` gates the four regex extractions. -/
def checkModemBearerStatus (poll : Except Unit (List Char)) : BearerCheck :=
  match poll with
  | .error _ => .notConnected
  | .ok out =>
    if containsSub "connected: yes".data out then
      match reSearchNumTok "address: ".data out, reSearchNumTok "prefix: ".data out,
            reSearchNumTok "gateway: ".data out, reSearchNumTok "mtu: ".data out with
      | some ip, some pr, some gw, some mt =>
        .info ⟨String.mk ip, String.mk pr, String.mk gw, String.mk mt⟩
      | _, _, _, _ => .crash
  else .notConnected

/-- Outcome of the bearer retry loop. -/
inductive ConnectResult where
  | ok (b : BearerInfo)
  | connectTimeout
  | crash
deriving DecidableEq, Repr

/-- The `while bearerInfo == None` retry loop of `__getDataConnection`.
`polls n` is the `mmcli -b` invocation of the n-th status poll (poll 0 is
the one before the loop; poll `n ≥ 1` follows in-loop connect attempt `n`
and a 10-second sleep).  `retryCount` mirrors the source counter; `fuel`
is spare structural fuel — `getDataConnection` supplies 12, which the
`retryCount > 10` guard provably never exhausts.  Returns the exit value
of `retryCount` (= number of in-loop `mmcli -b -c` connect attempts)
together with the result. -/
def bearerLoopAux (polls : Nat → Except Unit (List Char)) :
    Nat → Nat → Nat × ConnectResult
  | retryCount, 0 => (retryCount, .crash)
  | retryCount, fuel + 1 =>
    match checkModemBearerStatus (polls retryCount) with
    | .info b => (retryCount, .ok b)
    | .crash => (retryCount, .crash)
    | .notConnected =>
      if retryCount > 10 then (retryCount, .connectTimeout)
      else bearerLoopAux polls (retryCount + 1) fuel

/-- The retry portion of `UploadThread.__getDataConnection` (lines
105-120): initial poll, then connect-sleep-poll until a poll reports
connected or the `retryCount > 10` guard raises `UploadException`. -/
def getDataConnection (polls : Nat → Except Unit (List Char)) :
    Nat × ConnectResult :=
  bearerLoopAux polls 0 12

end Upload

/-! ## Collection server: server.py

One accepted connection is handled by reading a `0x04`-framed JSON
document, dispatching on `obj['action']`, and replying
`json.dumps({'status': 'OK'})` plus `0x04`.  The parsed request object is
modelled by its relevant keys, each `Option` (absent key → `KeyError`
escapes the `while True` loop and nothing is sent).  `handleUpload`
constructs `Cellsite(**site)` for each site (the `uploaded` column takes
its default, false) and saves each as a fresh row — there is no
deduplication or unique constraint. -/

namespace Server

/-- A parsed, well-framed request document, abstracted to the keys the
server reads. -/
structure Request where
  action : Option String
  device : Option String
  sites : Option (List Upload.SitePayload)
deriving DecidableEq, Repr

/-- Exceptions the handler can raise on a missing key. -/
inductive PyErr where
  | keyError (key : String)
deriving DecidableEq, Repr

/-- Row inserted by `Cellsite(**site)` — the payload fields plus the
defaulted `uploaded=False` column. -/
def siteToRow (p : Upload.SitePayload) : Cellsite :=
  ⟨p.lat, p.lon, p.alt, p.time, p.rx, p.mcc, p.mnc, p.lac, p.gen, p.cellid, false⟩

/-- `handleUpload(obj)` (server.py lines 33-37): reads `obj['device']`,
then appends one row per entry of `obj['sites']`. -/
def handleUpload (db : List Cellsite) (req : Request) :
    Except PyErr (List Cellsite) :=
  match req.device with
  | none => .error (.keyError "device")
  | some _ =>
    match req.sites with
    | none => .error (.keyError "sites")
    | some ss => .ok (db ++ ss.map siteToRow)

/-- The bytes the server sends back on success:
`json.dumps({'status': 'OK'})` followed by the EOT byte. -/
def okReplyBytes : List Char :=
  "\x7b\"status\": \"OK\"\x7d".data ++ [Char.ofNat 4]

/-- The body of the `while True` accept loop (server.py lines 14-25) for
one connection whose request parsed: dispatch on `obj['action']`, then
send the only reply the server ever produces. -/
def handleConn (db : List Cellsite) (req : Request) :
    Except PyErr (List Cellsite × List Char) :=
  match req.action with
  | none => .error (.keyError "action")
  | some a =>
    if a = "upload" then
      match handleUpload db req with
      | .error e => .error e
      | .ok db' => .ok (db', okReplyBytes)
    else .ok (db, okReplyBytes)

end Server

/-! ## Coordinator: `Runner` (start.py)

The coordinator consumes one event at a time from the queue.  Because
`Runner.uploadData` calls `upload.run()` directly (line 129 — `run`, not
`start`), the whole upload executes synchronously on the coordinator
thread; its observable intermediate states are listed explicitly so that
the mutual-exclusion invariant can be stated over every state the system
passes through, not only the states between events.  Each step returns
the list of states visited while handling the event (last element = the
state the next event is consumed in). -/

namespace Runner

/-- A position fix as stashed in `self.locn`. -/
structure Fix where
  lat : Rat
  lon : Rat
  alt : Rat
deriving DecidableEq, Repr

/-- Queue events as dispatched by `Runner.step` (start.py lines 65-77).
`panelEvent ty t` is `['PanelEvent', {'type': ty, 'time': t}]`. -/
inductive Event where
  | locationFix (f : Fix)
  | networkData (sites : List SiteScan)
  | panelEvent (ty : String) (t : Rat)
  | uploadComplete
deriving DecidableEq, Repr

/-- Environment one `UploadThread.run` executes against: whether
`__getDataConnection` succeeds, and the server oracle for the send
attempts. -/
structure UploadWorld where
  bearerOk : Bool
  srv : Nat → Upload.ServerReply

/-- Coordinator state: `self.locn`, the panel LED mode, whether the
radio (scanner) thread is alive, `self.radioShouldBeRunning`, whether an
`UploadThread.run` is currently executing, the persisted table, and how
many uploads have been launched (indexes the upload environment). -/
structure RunnerState where
  locn : Option Fix
  led : String
  radioRunning : Bool
  radioShouldBeRunning : Bool
  uploaderRunning : Bool
  db : List Cellsite
  uploadCount : Nat
deriving DecidableEq, Repr

/-- `handleNetworkData`'s per-site dict extension plus `saveCellSite`:
the scan dict gains `lat`, `lon`, `alt`, `time` and is inserted with the
defaulted `uploaded=False`. -/
def saveSite (l : Fix) (now : String) (b : SiteScan) : Cellsite :=
  ⟨l.lat, l.lon, l.alt, now, b.rx, b.mcc, b.mnc, b.lac, b.gen, b.cellid, false⟩

/-- `Runner.uploadData` (start.py lines 115-129) expanded into its
visited states: set LED to blink and clear `radioShouldBeRunning`; stop
and join the radio thread (after the join it is not alive whether or not
it was before); run the uploader synchronously (during which the radio is
provably stopped); the run returns having queued `UploadComplete`. -/
def uploadDataRun (world : UploadWorld) (s : RunnerState) :
    List RunnerState × RunnerState :=
  let s1 := { s with led := "blink", radioShouldBeRunning := false }
  let s2 := { s1 with radioRunning := false }
  let s3 := { s2 with uploaderRunning := true }
  let db' := (Upload.run world.bearerOk world.srv s2.db).1
  let s4 := { s3 with uploaderRunning := false, db := db',
                      uploadCount := s.uploadCount + 1 }
  ([s1, s2, s3, s4], s4)

/-- `Runner.step` for one dequeued event: the dispatch of start.py lines
69-77 with each handler inlined.  `now` is the timestamp string
`datetime.now()` formats in `handleNetworkData`; `w n` is the environment
of the n-th upload run. -/
def stepRun (w : Nat → UploadWorld) (now : String) (e : Event)
    (s : RunnerState) : List RunnerState × RunnerState :=
  match e with
  | .locationFix f =>
    let s' := { s with locn := some f }
    ([s'], s')
  | .networkData sites =>
    match s.locn with
    | none => ([s], s)
    | some l =>
      let s1 := if s.radioShouldBeRunning then { s with led := "on" } else s
      let s2 := { s1 with db := s1.db ++ sites.map (saveSite l now) }
      ([s1, s2], s2)
  | .panelEvent ty t =>
    if ty = "CtlButton" ∧ t < 1 then uploadDataRun (w s.uploadCount) s
    else ([s], s)
  | .uploadComplete =>
    let sA := { s with radioShouldBeRunning := true, locn := none, led := "off" }
    let sB := { sA with radioRunning := true }
    ([sA, sB], sB)

/-- States visited while consuming a list of timestamped events. -/
def runStates (w : Nat → UploadWorld) :
    List (String × Event) → RunnerState → List RunnerState
  | [], _ => []
  | (now, e) :: rest, s =>
    (stepRun w now e s).1 ++ runStates w rest (stepRun w now e s).2

/-- State after consuming a list of timestamped events. -/
def runFinal (w : Nat → UploadWorld) :
    List (String × Event) → RunnerState → RunnerState
  | [], s => s
  | (now, e) :: rest, s => runFinal w rest (stepRun w now e s).2

/-- `Runner.__init__` plus `setup()`: no fix, LED off, no radio thread
(the scanner is deliberately not started at boot), no upload running.
`db0` is whatever the datastore already holds. -/
def initState (db0 : List Cellsite) : RunnerState :=
  ⟨none, "off", false, false, false, db0, 0⟩

/-- `__main__` (start.py lines 16-33): construct the runner, `setup()`,
run one upload synchronously, then consume events forever.  Returns every
state the coordinator passes through for a given consumed-event list. -/
def mainStates (w : Nat → UploadWorld) (db0 : List Cellsite)
    (evs : List (String × Event)) : List RunnerState :=
  (uploadDataRun (w 0) (initState db0)).1
    ++ runStates w evs (uploadDataRun (w 0) (initState db0)).2

end Runner

/-- Sample persisted row used by witnesses. -/
def sampleRow : Cellsite :=
  ⟨1, 2, 3, "2021-01-01 00:00:00", "-85", "310", "260", "2021", "2g", "54321", false⟩

/-- Bearer status oracle that reports connected only on the 12th poll
(poll index 11, i.e. after the 11th in-loop retry). -/
def pollsLate (n : Nat) : Except Unit (List Char) :=
  if n = 11 then
    .ok ("status | connected: yes | address: 10.20.30.40 | prefix: 30 | gateway: 10.20.30.41 | mtu: 1430").data
  else .ok ("status | connected: no").data

/-- Upload environment used by witnesses: bearer comes up, server
acknowledges every attempt. -/
def wOk : Nat → Runner.UploadWorld := fun _ => ⟨true, fun _ => .ok⟩

/-! ## Theorems -/

theorem strAppendAssoc : ∀ a b c : String, a ++ b ++ c = a ++ (b ++ c)
  | ⟨la⟩, ⟨lb⟩, ⟨lc⟩ => congrArg String.mk (List.append_assoc la lb lc)

theorem strAppendEmpty : ∀ a : String, a ++ "" = a
  | ⟨la⟩ => congrArg String.mk (List.append_nil la)

theorem strEmptyAppend : ∀ a : String, "" ++ a = a
  | ⟨_⟩ => rfl

theorem atReadLoop_accumulates (ls : List String) (acc : String)
    (hok : "OK" ∉ ls) (herr : "ERROR" ∉ ls) (hne : "" ∉ ls) :
    Radio.atReadLoop (ls ++ ["OK"]) acc
      = some (acc ++ Radio.linesJoin ls, "OK") := by
  induction ls generalizing acc with
  | nil => simp [Radio.atReadLoop, Radio.linesJoin, strAppendEmpty]
  | cons l rest ih =>
    have h1 : l ≠ "OK" := fun h => hok (h ▸ List.mem_cons_self l rest)
    have h2 : l ≠ "ERROR" := fun h => herr (h ▸ List.mem_cons_self l rest)
    have h3 : l ≠ "" := fun h => hne (h ▸ List.mem_cons_self l rest)
    have hok' : "OK" ∉ rest := fun h => hok (List.mem_cons_of_mem l h)
    have herr' : "ERROR" ∉ rest := fun h => herr (List.mem_cons_of_mem l h)
    have hne' : "" ∉ rest := fun h => hne (List.mem_cons_of_mem l h)
    have key : Radio.atReadLoop ((l :: rest) ++ ["OK"]) acc
        = Radio.atReadLoop (rest ++ ["OK"]) (acc ++ l ++ "\n") := by
      simp only [List.cons_append, Radio.atReadLoop]
      rw [if_neg (by simp [h1, h2]), if_pos h3]
      rfl
    rw [key, ih _ hok' herr' hne']
    simp only [Radio.linesJoin, strAppendAssoc]

/-- C4: `send` (`__atGetResp`) discards the first (echoed) line and
accumulates subsequent lines until a terminator line `OK` or `ERROR`,
excluding the terminator from the returned data; on reply lines
`["echo","line1","line2","OK"]` it returns the data of lines
`line1`,`line2`; on `["echo","ERROR"]` with errors disallowed it fails
with `RadioException` (the spec's `ProtocolError`); with `errorOK` set it
returns normally despite the `ERROR` terminator. -/
theorem atGetResp_framing :
    (∀ (ls : List String) (echo : String) (errOK : Bool),
        "OK" ∉ ls → "ERROR" ∉ ls → "" ∉ ls →
        Radio.atGetResp errOK (echo :: ls ++ ["OK"]) = .ok (Radio.linesJoin ls))
    ∧ Radio.atGetResp false ["echo", "line1", "line2", "OK"] = .ok "line1\nline2\n"
    ∧ Radio.atGetResp false ["echo", "ERROR"] = .protocolError
    ∧ Radio.atGetResp true ["echo", "ERROR"] = .ok "" := by
  refine ⟨?_, by decide, by decide, by decide⟩
  intro ls echo errOK hok herr hne
  show (match Radio.atReadLoop (ls ++ ["OK"]) "" with
    | none => Radio.AtResult.hang
    | some (data, term) =>
      if term = "ERROR" ∧ errOK = false then .protocolError else .ok data)
    = .ok (Radio.linesJoin ls)
  rw [atReadLoop_accumulates ls "" hok herr hne]
  simp [strEmptyAppend]

/-- Closed instance of the accumulation part of `atGetResp_framing`. -/
theorem atGetResp_framing_witness :
    Radio.atGetResp false ["AT+GMM", "LE910C1", "OK"]
      = .ok (Radio.linesJoin ["LE910C1"]) :=
  atGetResp_framing.1 ["LE910C1"] "AT+GMM" false (by decide) (by decide) (by decide)

/-- C5: a survey response with one malformed line (wrong field count for
its leading token) between two well-formed lines (one 2G, one 4G) parses
to exactly the two `Site` entries with fields taken from the fixed
whitespace-delimited positions of each format, records one warning for
the malformed line, and the malformed line does not abort parsing of the
line after it. -/
theorem networkScan_resilience :
    Radio.networkScan
      ("arfcn: 176 bsic: 36 rxLev: -85 ber: 0.00 mcc: 310 mnc: 260 lac: 2021 cellId: 54321\nuarfcn: 10562 rxlev: -70\nearfcn: 5110 rxlev: -90 mcc: 311 mnc: 480 cellid: 77777 tac: 21").data
    = ([⟨"-85", "310", "260", "2021", "54321", "2g"⟩,
        ⟨"-90", "311", "480", "21", "77777", "4g"⟩], 1) := by
  decide

theorem uploadLoopAux_db_cases (srv : Nat → Upload.ServerReply)
    (db : List Cellsite) :
    ∀ fuel a,
      ((Upload.uploadLoopAux srv db a fuel).committed = true →
        (Upload.uploadLoopAux srv db a fuel).db = Upload.markUploaded db)
      ∧ ((Upload.uploadLoopAux srv db a fuel).committed = false →
        (Upload.uploadLoopAux srv db a fuel).db = db) := by
  intro fuel
  induction fuel with
  | zero => intro a; exact ⟨fun h => by simp [Upload.uploadLoopAux] at h, fun _ => rfl⟩
  | succ fuel ih =>
    intro a
    cases hs : srv a with
    | ok => exact ⟨fun _ => by simp [Upload.uploadLoopAux, hs],
                   fun h => by simp [Upload.uploadLoopAux, hs] at h⟩
    | badStatus st => simpa [Upload.uploadLoopAux, hs] using ih (a + 1)
    | ioError => simpa [Upload.uploadLoopAux, hs] using ih (a + 1)

theorem selectUnsent_markUploaded (db : List Cellsite) :
    Upload.selectUnsent (Upload.markUploaded db) = [] := by
  induction db with
  | nil => rfl
  | cons r rest ih =>
    cases hr : r.uploaded <;>
      simp [Upload.markUploaded, Upload.selectUnsent, List.filter_cons, hr] <;>
      simpa [Upload.markUploaded, Upload.selectUnsent] using ih

/-- C2: when an attempt receives a server reply with status `OK`, the
committed update flips `uploaded` from false to true for exactly the rows
that were unsent (the set read at the start of the attempt — there is no
concurrent writer while the uploader runs) and touches no other row; when
no attempt's round trip succeeds, the table — and hence the set of
`uploaded=false` rows — is exactly what it was before (no partial
marking). -/
theorem upload_commit_exact (srv : Nat → Upload.ServerReply)
    (db : List Cellsite) :
    ((Upload.uploadData srv db).committed = true →
        (Upload.uploadData srv db).db = Upload.markUploaded db
        ∧ (∀ i : Nat, (Upload.uploadData srv db).db[i]?
            = (db[i]?).map
                (fun r : Cellsite =>
                  if r.uploaded then r else { r with uploaded := true }))
        ∧ Upload.selectUnsent (Upload.uploadData srv db).db = [])
    ∧ ((Upload.uploadData srv db).committed = false →
        (Upload.uploadData srv db).db = db
        ∧ Upload.selectUnsent (Upload.uploadData srv db).db
            = Upload.selectUnsent db) := by
  have h := uploadLoopAux_db_cases srv db 5 0
  constructor
  · intro hc
    have hdb : (Upload.uploadData srv db).db = Upload.markUploaded db := h.1 hc
    refine ⟨hdb, ?_, ?_⟩
    · intro i
      rw [hdb]
      simp [Upload.markUploaded, List.getElem?_map]
    · rw [hdb]; exact selectUnsent_markUploaded db
  · intro hc
    have hdb : (Upload.uploadData srv db).db = db := h.2 hc
    exact ⟨hdb, by rw [hdb]⟩

/-- Closed instance of the commit case of `upload_commit_exact`. -/
theorem upload_commit_exact_witness :
    (Upload.uploadData (fun _ => .ok) [sampleRow]).db
      = Upload.markUploaded [sampleRow]
    ∧ Upload.selectUnsent (Upload.uploadData (fun _ => .ok) [sampleRow]).db
      = [] := by
  have h := (upload_commit_exact (fun _ => Upload.ServerReply.ok) [sampleRow]).1
    (by decide)
  exact ⟨h.1, h.2.2⟩

theorem uploadLoopAux_neverOk (srv : Nat → Upload.ServerReply)
    (db : List Cellsite) (h : ∀ n, srv n ≠ .ok) :
    ∀ fuel a, Upload.uploadLoopAux srv db a fuel = ⟨db, false, a + fuel⟩ := by
  intro fuel
  induction fuel with
  | zero => intro a; rfl
  | succ fuel ih =>
    intro a
    cases hs : srv a with
    | ok => exact absurd hs (h a)
    | badStatus st =>
      show (match srv a with
        | Upload.ServerReply.ok => ⟨Upload.markUploaded db, true, a + 1⟩
        | _ => Upload.uploadLoopAux srv db (a + 1) fuel)
        = Upload.UploadOutcome.mk db false (a + (fuel + 1))
      rw [hs, ih (a + 1)]
      have : a + 1 + fuel = a + (fuel + 1) := by omega
      rw [this]
    | ioError =>
      show (match srv a with
        | Upload.ServerReply.ok => ⟨Upload.markUploaded db, true, a + 1⟩
        | _ => Upload.uploadLoopAux srv db (a + 1) fuel)
        = Upload.UploadOutcome.mk db false (a + (fuel + 1))
      rw [hs, ih (a + 1)]
      have : a + 1 + fuel = a + (fuel + 1) := by omega
      rw [this]

/-- C3: against a server that never replies `OK` (every attempt's round
trip completes with a non-`OK` status), `__uploadData` performs exactly 5
whole connect+send+receive cycles (the `attempts` counter reaches 5),
gives up with nothing marked uploaded and without raising (the per-cycle
exception is caught inside the loop), and `UploadThread.run` — on this
and on every other path — puts exactly one `UploadComplete` event on the
coordinator queue. -/
theorem upload_bound (srv : Nat → Upload.ServerReply) (db : List Cellsite)
    (h : ∀ n, ∃ st, srv n = .badStatus st) :
    (Upload.uploadData srv db).attempts = 5
    ∧ (Upload.uploadData srv db).committed = false
    ∧ (Upload.uploadData srv db).db = db
    ∧ (∀ bearerOk, (Upload.run bearerOk srv db).1 = db)
    ∧ (∀ bearerOk (srv' : Nat → Upload.ServerReply) (db' : List Cellsite),
        (Upload.run bearerOk srv' db').2 = [.uploadComplete]) := by
  have hno : ∀ n, srv n ≠ .ok := by
    intro n hn
    obtain ⟨st, hst⟩ := h n
    rw [hn] at hst
    exact Upload.ServerReply.noConfusion hst
  have hl := uploadLoopAux_neverOk srv db hno 5 0
  have hu : Upload.uploadData srv db = ⟨db, false, 5⟩ := hl
  refine ⟨by rw [hu], by rw [hu], by rw [hu], ?_, ?_⟩
  · intro bearerOk
    cases bearerOk <;> simp [Upload.run, hu]
  · intro bearerOk srv' db'
    cases bearerOk <;> rfl

/-- Closed instance of `upload_bound`. -/
theorem upload_bound_witness :
    (Upload.uploadData (fun _ => .badStatus "FAIL") [sampleRow]).attempts = 5
    ∧ (Upload.uploadData (fun _ => .badStatus "FAIL") [sampleRow]).committed = false
    ∧ (Upload.uploadData (fun _ => .badStatus "FAIL") [sampleRow]).db = [sampleRow] := by
  have h := upload_bound (fun _ => .badStatus "FAIL") [sampleRow]
    (fun n => ⟨"FAIL", rfl⟩)
  exact ⟨h.1, h.2.1, h.2.2.1⟩

/-- C7 counterexample: with zero `uploaded=false` records the upload
attempt still contacts the server: the retry loop runs (the `attempts`
counter leaves 0 — each counted attempt is a connect+send+receive cycle
against the server oracle), and with a server that never acknowledges it
runs all 5 cycles, none of which the claimed trivial success would
permit.  The claim that no TCP connection is opened and no request
document is sent is therefore false on the code. -/
theorem upload_empty_counterexample :
    Upload.selectUnsent ([] : List Cellsite) = []
    ∧ (Upload.uploadData (fun _ => .ok) []).attempts = 1
    ∧ (Upload.uploadData (fun _ => .badStatus "FAIL") []).attempts = 5
    ∧ (Upload.uploadRequest "FFT-01" []).sites = [] := by
  refine ⟨rfl, rfl, ?_, rfl⟩
  exact congrArg Upload.UploadOutcome.attempts
    (uploadLoopAux_neverOk (fun _ => .badStatus "FAIL") []
      (fun _ hcon => Upload.ServerReply.noConfusion hcon) 5 0)

/-- C7 amended: an upload attempt that finds zero `uploaded=false`
records still opens a connection and sends the request document — whose
`sites` list is empty — and succeeds trivially on the first `OK`
acknowledgement, leaving the table unchanged. -/
theorem upload_empty_attempt (srv : Nat → Upload.ServerReply)
    (deviceId : String) (db : List Cellsite)
    (h0 : Upload.selectUnsent db = []) (hok : srv 0 = .ok) :
    Upload.uploadData srv db = ⟨db, true, 1⟩
    ∧ (Upload.uploadRequest deviceId db).sites = [] := by
  have hmark : Upload.markUploaded db = db := by
    have hall := List.filter_eq_nil_iff.mp h0
    induction db with
    | nil => rfl
    | cons r rest ih =>
      have hr : r.uploaded = true := by
        have := hall r (List.mem_cons_self r rest)
        simpa using this
      have hrest : Upload.markUploaded rest = rest := by
        apply ih
        · simp only [Upload.selectUnsent, List.filter_cons, hr] at h0 ⊢
          simpa [hr] using h0
        · intro a ha
          exact hall a (List.mem_cons_of_mem r ha)
      simp [Upload.markUploaded, hr] at hrest ⊢
      exact hrest
  constructor
  · show Upload.uploadLoopAux srv db 0 5 = ⟨db, true, 1⟩
    simp [Upload.uploadLoopAux, hok, hmark]
  · simp [Upload.uploadRequest, h0]

/-- Closed instance of `upload_empty_attempt`: a table whose only row is
already uploaded. -/
theorem upload_empty_attempt_witness :
    Upload.uploadData (fun _ => .ok) [{ sampleRow with uploaded := true }]
      = ⟨[{ sampleRow with uploaded := true }], true, 1⟩
    ∧ (Upload.uploadRequest "FFT-01" [{ sampleRow with uploaded := true }]).sites
      = [] :=
  upload_empty_attempt (fun _ => .ok) "FFT-01" _ (by decide) rfl

/-- C6 counterexample: under `pollsLate` the bearer does not report
connected on any of the initial poll and the first 10 retries, so by the
claim (retry bound 10) the connect must fail with `ConnectTimeout`; but
the code's `retryCount > 10` guard admits an 11th retry, whose poll
succeeds, and `__getDataConnection` returns the extracted
ip/prefix/gateway/mtu instead of failing. -/
theorem bearer_retry_claim_counterexample :
    ((List.range 11).all
        (fun n => Upload.checkModemBearerStatus (pollsLate n)
          == Upload.BearerCheck.notConnected)) = true
    ∧ Upload.getDataConnection pollsLate
        = (11, .ok ⟨"10.20.30.40", "30", "10.20.30.41", "1430"⟩) := by
  constructor
  · decide
  · decide

theorem bearerLoopAux_timeout (polls : Nat → Except Unit (List Char))
    (h : ∀ n, n ≤ 11 → Upload.checkModemBearerStatus (polls n) = .notConnected) :
    ∀ fuel rc, rc ≤ 11 → rc + fuel = 12 →
      Upload.bearerLoopAux polls rc fuel = (11, .connectTimeout) := by
  intro fuel
  induction fuel with
  | zero => intro rc hrc hsum; omega
  | succ fuel ih =>
    intro rc hrc hsum
    show (match Upload.checkModemBearerStatus (polls rc) with
      | Upload.BearerCheck.info b => (rc, Upload.ConnectResult.ok b)
      | Upload.BearerCheck.crash => (rc, Upload.ConnectResult.crash)
      | Upload.BearerCheck.notConnected =>
        if rc > 10 then (rc, Upload.ConnectResult.connectTimeout)
        else Upload.bearerLoopAux polls (rc + 1) fuel)
      = (11, Upload.ConnectResult.connectTimeout)
    rw [h rc hrc]
    by_cases hg : rc > 10
    · have : rc = 11 := by omega
      simp [hg, this]
    · have h1 : rc + 1 ≤ 11 := by omega
      simp [hg, ih (rc + 1) h1 (by omega)]

theorem bearerLoopAux_firstSuccess (polls : Nat → Except Unit (List Char))
    (k : Nat) (b : Upload.BearerInfo) (hk : k ≤ 11)
    (hpre : ∀ n, n < k → Upload.checkModemBearerStatus (polls n) = .notConnected)
    (hsucc : Upload.checkModemBearerStatus (polls k) = .info b) :
    ∀ fuel rc, rc ≤ k → rc + fuel = 12 →
      Upload.bearerLoopAux polls rc fuel = (k, .ok b) := by
  intro fuel
  induction fuel with
  | zero => intro rc hrc hsum; omega
  | succ fuel ih =>
    intro rc hrc hsum
    show (match Upload.checkModemBearerStatus (polls rc) with
      | Upload.BearerCheck.info b => (rc, Upload.ConnectResult.ok b)
      | Upload.BearerCheck.crash => (rc, Upload.ConnectResult.crash)
      | Upload.BearerCheck.notConnected =>
        if rc > 10 then (rc, Upload.ConnectResult.connectTimeout)
        else Upload.bearerLoopAux polls (rc + 1) fuel)
      = (k, Upload.ConnectResult.ok b)
    rcases Nat.lt_or_ge rc k with hlt | hge
    · rw [hpre rc hlt]
      have hg : ¬ rc > 10 := by omega
      simp [hg, ih (rc + 1) (by omega) (by omega)]
    · have : rc = k := by omega
      subst this
      rw [hsucc]

/-- C6 amended: `__getDataConnection` polls bearer status once before the
loop and then once per retry on a fixed 10-second sleep; the
`retryCount > 10` guard bounds the loop at 11 retries (12 polls in all).
Only if none of those polls reports connected does connect fail — with
`UploadException` (the spec's `ConnectTimeout`); when some poll among the
first 12 is the first to report connected, connect succeeds and returns
the ip/prefix/gateway/mtu extracted from that poll's output. -/
theorem bearer_retry_bound (polls : Nat → Except Unit (List Char)) :
    ((∀ n, n ≤ 11 → Upload.checkModemBearerStatus (polls n) = .notConnected) →
      Upload.getDataConnection polls = (11, .connectTimeout))
    ∧ (∀ (k : Nat) (b : Upload.BearerInfo), k ≤ 11 →
        (∀ n, n < k → Upload.checkModemBearerStatus (polls n) = .notConnected) →
        Upload.checkModemBearerStatus (polls k) = .info b →
        Upload.getDataConnection polls = (k, .ok b)) := by
  constructor
  · intro h
    exact bearerLoopAux_timeout polls h 12 0 (by omega) rfl
  · intro k b hk hpre hsucc
    exact bearerLoopAux_firstSuccess polls k b hk hpre hsucc 12 0 (by omega) rfl

/-- Closed instance of both parts of `bearer_retry_bound`: a bearer that
never connects times out after retry 11, and one that connects on the
initial poll succeeds at once. -/
theorem bearer_retry_bound_witness :
    Upload.getDataConnection (fun _ => .ok ("status | connected: no").data)
      = (11, .connectTimeout)
    ∧ Upload.getDataConnection (fun _ => pollsLate 11)
      = (0, .ok ⟨"10.20.30.40", "30", "10.20.30.41", "1430"⟩) :=
  ⟨(bearer_retry_bound _).1 (fun n _ => by decide),
   (bearer_retry_bound _).2 0 _ (by omega) (fun n hn => absurd hn (Nat.not_lt_zero n))
     (by decide)⟩

/-- C10 counterexample: the empty JSON object is a well-framed request
(a parseable JSON object followed by `0x04`), yet the server does not
reply `OK` — `obj['action']` raises `KeyError`, which nothing catches, so
no response at all is sent (and the accept loop dies).  The same happens
on an `upload` action whose object lacks `device` or `sites`. -/
theorem server_unconditional_ok_counterexample :
    Server.handleConn [] ⟨none, none, none⟩ = .error (.keyError "action")
    ∧ Server.handleConn [] ⟨some "upload", none, none⟩
        = .error (.keyError "device")
    ∧ Server.handleConn [] ⟨some "upload", some "FFT-01", none⟩
        = .error (.keyError "sites") := ⟨rfl, rfl, rfl⟩

/-- C10 amended: for every well-framed request whose object has an
`action` key — and, when the action is `upload`, also `device` and
`sites` keys — the server replies `{"status": "OK"}` followed by `0x04`
regardless of the action's value; the `OK` reply is the only reply the
code can ever send; and re-processing the same upload request appends the
same site rows again as duplicate rows. -/
theorem server_replies_ok (db : List Cellsite) (req : Server.Request)
    (a : String) (ha : req.action = some a)
    (hdev : a = "upload" → ∃ d, req.device = some d)
    (hsites : a = "upload" → ∃ ss, req.sites = some ss) :
    (∃ db', Server.handleConn db req = .ok (db', Server.okReplyBytes))
    ∧ (∀ (db₂ : List Cellsite) (dev : String)
        (ss : List Upload.SitePayload),
        Server.handleConn db₂ ⟨some "upload", some dev, some ss⟩
          = .ok (db₂ ++ ss.map Server.siteToRow, Server.okReplyBytes)
        ∧ Server.handleConn (db₂ ++ ss.map Server.siteToRow)
            ⟨some "upload", some dev, some ss⟩
          = .ok (db₂ ++ ss.map Server.siteToRow ++ ss.map Server.siteToRow,
                 Server.okReplyBytes)) := by
  constructor
  · by_cases hup : a = "upload"
    · obtain ⟨d, hd⟩ := hdev hup
      obtain ⟨ss, hss⟩ := hsites hup
      refine ⟨db ++ ss.map Server.siteToRow, ?_⟩
      simp [Server.handleConn, Server.handleUpload, ha, hd, hss, hup]
    · exact ⟨db, by simp [Server.handleConn, ha, hup]⟩
  · intro db₂ dev ss
    exact ⟨rfl, rfl⟩

/-- Closed instance of `server_replies_ok`: a non-upload action is still
acknowledged `OK`, and storing the same single-site upload twice leaves
two copies of the row. -/
theorem server_replies_ok_witness :
    (∃ db', Server.handleConn [] ⟨some "noop", none, none⟩
      = .ok (db', Server.okReplyBytes))
    ∧ Server.handleConn [Server.siteToRow (Upload.sitePayload sampleRow)]
        ⟨some "upload", some "FFT-01", some [Upload.sitePayload sampleRow]⟩
      = .ok ([Server.siteToRow (Upload.sitePayload sampleRow),
              Server.siteToRow (Upload.sitePayload sampleRow)],
             Server.okReplyBytes) := by
  have h := server_replies_ok [] ⟨some "noop", none, none⟩ "noop" rfl
    (fun hcon => absurd hcon (by decide)) (fun hcon => absurd hcon (by decide))
  refine ⟨h.1, ?_⟩
  have h2 := (h.2 [Server.siteToRow (Upload.sitePayload sampleRow)] "FFT-01"
    [Upload.sitePayload sampleRow]).1
  simpa using h2

theorem uploadLoopAux_length (srv : Nat → Upload.ServerReply)
    (db : List Cellsite) (fuel a : Nat) :
    (Upload.uploadLoopAux srv db a fuel).db.length = db.length := by
  have h := uploadLoopAux_db_cases srv db fuel a
  cases hc : (Upload.uploadLoopAux srv db a fuel).committed with
  | true => rw [h.1 hc]; exact List.length_map _ _
  | false => rw [h.2 hc]

theorem uploadRun_length (bearerOk : Bool) (srv : Nat → Upload.ServerReply)
    (db : List Cellsite) : (Upload.run bearerOk srv db).1.length = db.length := by
  cases bearerOk with
  | false => rfl
  | true => exact uploadLoopAux_length srv db 5 0

theorem uploadDataRun_inv (world : Runner.UploadWorld) (s : Runner.RunnerState)
    (hu : s.uploaderRunning = false) :
    (∀ u ∈ (Runner.uploadDataRun world s).1,
      ¬(u.radioRunning = true ∧ u.uploaderRunning = true))
    ∧ (Runner.uploadDataRun world s).2.uploaderRunning = false := by
  constructor
  · intro u hm
    simp only [Runner.uploadDataRun, List.mem_cons, List.not_mem_nil, or_false] at hm
    rcases hm with h | h | h | h <;> subst h <;> simp [hu]
  · rfl

theorem stepRun_inv (w : Nat → Runner.UploadWorld) (now : String)
    (e : Runner.Event) (s : Runner.RunnerState)
    (hu : s.uploaderRunning = false) :
    (∀ u ∈ (Runner.stepRun w now e s).1,
      ¬(u.radioRunning = true ∧ u.uploaderRunning = true))
    ∧ (Runner.stepRun w now e s).2.uploaderRunning = false := by
  cases e with
  | locationFix f =>
    refine ⟨?_, hu⟩
    intro u hm
    simp [Runner.stepRun] at hm
    subst hm; simp [hu]
  | networkData sites =>
    cases hl : s.locn with
    | none =>
      refine ⟨?_, by simp [Runner.stepRun, hl, hu]⟩
      intro u hm
      simp [Runner.stepRun, hl] at hm
      subst hm; simp [hu]
    | some l =>
      by_cases hb : s.radioShouldBeRunning = true <;>
      · refine ⟨?_, by simp [Runner.stepRun, hl, hb, hu]⟩
        intro u hm
        simp [Runner.stepRun, hl, hb] at hm
        rcases hm with h | h <;> subst h <;> simp [hu]
  | panelEvent ty t =>
    by_cases hc : ty = "CtlButton" ∧ t < 1
    · have heq : Runner.stepRun w now (.panelEvent ty t) s
          = Runner.uploadDataRun (w s.uploadCount) s := by
        simp only [Runner.stepRun]; rw [if_pos hc]
      rw [heq]
      exact uploadDataRun_inv (w s.uploadCount) s hu
    · have heq : Runner.stepRun w now (.panelEvent ty t) s = ([s], s) := by
        simp only [Runner.stepRun]; rw [if_neg hc]
      rw [heq]
      refine ⟨?_, hu⟩
      intro u hm
      simp at hm; subst hm; simp [hu]
  | uploadComplete =>
    refine ⟨?_, by simp [Runner.stepRun, hu]⟩
    intro u hm
    simp [Runner.stepRun] at hm
    rcases hm with h | h <;> subst h <;> simp [hu]

theorem runStates_inv (w : Nat → Runner.UploadWorld) :
    ∀ (evs : List (String × Runner.Event)) (s : Runner.RunnerState),
      s.uploaderRunning = false →
      ∀ u ∈ Runner.runStates w evs s,
        ¬(u.radioRunning = true ∧ u.uploaderRunning = true) := by
  intro evs
  induction evs with
  | nil => intro s _ u hm; simp [Runner.runStates] at hm
  | cons p rest ih =>
    intro s hu u hm
    obtain ⟨now, e⟩ := p
    simp only [Runner.runStates, List.mem_append] at hm
    rcases hm with h | h
    · exact (stepRun_inv w now e s hu).1 u h
    · exact ih _ (stepRun_inv w now e s hu).2 u h

/-- C1: for every sequence of events the coordinator consumes — upload
triggers included — the Network Scanner (radio thread) and the Uploader
are never both in a running state: `Runner.uploadData` stops and joins
the scanner before `UploadThread.run` executes (synchronously, on the
coordinator thread), and a scanner is started again only by the
`UploadComplete` handler, at which point no uploader is running.  The
statement quantifies over every state the system passes through,
including the intermediate states inside an upload trigger and the
startup upload of `__main__`. -/
theorem scanner_uploader_mutex (w : Nat → Runner.UploadWorld)
    (db0 : List Cellsite) (evs : List (String × Runner.Event)) :
    ∀ u ∈ Runner.mainStates w db0 evs,
      ¬(u.radioRunning = true ∧ u.uploaderRunning = true) := by
  intro u hm
  have h0 := uploadDataRun_inv (w 0) (Runner.initState db0) rfl
  simp only [Runner.mainStates, List.mem_append] at hm
  rcases hm with h | h
  · exact h0.1 u h
  · exact runStates_inv w evs _ h0.2 u h

/-- Closed instance of `scanner_uploader_mutex` at the first state of a
run with no events. -/
theorem scanner_uploader_mutex_witness :
    ¬((⟨none, "blink", false, false, false, ([] : List Cellsite), 0⟩
        : Runner.RunnerState).radioRunning = true
      ∧ (⟨none, "blink", false, false, false, ([] : List Cellsite), 0⟩
        : Runner.RunnerState).uploaderRunning = true) :=
  scanner_uploader_mutex wOk [] [] _ (by decide)

theorem step_stale (w : Nat → Runner.UploadWorld) (now : String)
    (e : Runner.Event) (s : Runner.RunnerState) (hl : s.locn = none)
    (hnf : ∀ f, e ≠ Runner.Event.locationFix f) :
    (Runner.stepRun w now e s).2.locn = none
    ∧ (Runner.stepRun w now e s).2.db.length = s.db.length := by
  cases e with
  | locationFix f => exact absurd rfl (hnf f)
  | networkData sites => simp [Runner.stepRun, hl]
  | panelEvent ty t =>
    by_cases hc : ty = "CtlButton" ∧ t < 1
    · have heq : Runner.stepRun w now (.panelEvent ty t) s
          = Runner.uploadDataRun (w s.uploadCount) s := by
        simp only [Runner.stepRun]; rw [if_pos hc]
      rw [heq]
      exact ⟨hl, uploadRun_length _ _ _⟩
    · have heq : Runner.stepRun w now (.panelEvent ty t) s = ([s], s) := by
        simp only [Runner.stepRun]; rw [if_neg hc]
      rw [heq]
      exact ⟨hl, rfl⟩
  | uploadComplete => exact ⟨rfl, rfl⟩

theorem runFinal_stale (w : Nat → Runner.UploadWorld) :
    ∀ (evs : List (String × Runner.Event)) (s : Runner.RunnerState),
      s.locn = none →
      (∀ p ∈ evs, ∀ f, p.2 ≠ Runner.Event.locationFix f) →
      (Runner.runFinal w evs s).locn = none
      ∧ (Runner.runFinal w evs s).db.length = s.db.length := by
  intro evs
  induction evs with
  | nil => intro s hl _; exact ⟨hl, rfl⟩
  | cons p rest ih =>
    intro s hl hnf
    obtain ⟨now, e⟩ := p
    have hstep := step_stale w now e s hl
      (fun f => hnf (now, e) (List.mem_cons_self _ _) f)
    have hrest := ih (Runner.stepRun w now e s).2 hstep.1
      (fun q hq f => hnf q (List.mem_cons_of_mem _ hq) f)
    exact ⟨hrest.1, by rw [Runner.runFinal]; rw [hrest.2, hstep.2]⟩

/-- C8: consuming `UploadComplete` clears the latest known position, and
as long as no new `LocationFix` is consumed the position stays cleared
and the observation table gains no rows — in particular a `NetworkData`
event consumed while no position is known persists nothing and leaves the
state untouched. -/
theorem position_staleness (w : Nat → Runner.UploadWorld) (now : String)
    (s : Runner.RunnerState) (evs : List (String × Runner.Event))
    (hnf : ∀ p ∈ evs, ∀ f, p.2 ≠ Runner.Event.locationFix f) :
    (Runner.stepRun w now .uploadComplete s).2.locn = none
    ∧ (Runner.runFinal w evs
        (Runner.stepRun w now .uploadComplete s).2).db.length = s.db.length
    ∧ (∀ (now' : String) (sites : List SiteScan) (s' : Runner.RunnerState),
        s'.locn = none →
        Runner.stepRun w now' (.networkData sites) s' = ([s'], s')) := by
  refine ⟨rfl, ?_, ?_⟩
  · have h := runFinal_stale w evs (Runner.stepRun w now .uploadComplete s).2
      rfl hnf
    exact h.2
  · intro now' sites s' hl'
    simp [Runner.stepRun, hl']

/-- Closed instance of `position_staleness`: after `UploadComplete`, a
`NetworkData` event carrying one site adds no row. -/
theorem position_staleness_witness :
    (Runner.stepRun wOk "t0" .uploadComplete (Runner.initState [sampleRow])).2.locn
      = none
    ∧ (Runner.runFinal wOk
        [("t1", .networkData [⟨"-85", "310", "260", "2021", "54321", "2g"⟩])]
        (Runner.stepRun wOk "t0" .uploadComplete
          (Runner.initState [sampleRow])).2).db.length
      = (Runner.initState [sampleRow]).db.length := by
  have h := position_staleness wOk "t0" (Runner.initState [sampleRow])
    [("t1", .networkData [⟨"-85", "310", "260", "2021", "54321", "2g"⟩])]
    (by
      intro p hp f
      simp only [List.mem_singleton] at hp
      subst hp
      intro hcon
      exact Runner.Event.noConfusion hcon)
  exact ⟨h.1, h.2.1⟩

/-- C9: a `ControlEvent` (`PanelEvent` of type `CtlButton`) with press
duration strictly under 1 second triggers `Runner.uploadData`, and this
is the only event path that stops the scanner or starts the uploader: any
other event — a button press of 1 second or more included — leaves the
uploader flag untouched and never stops a running scanner. -/
theorem control_trigger (w : Nat → Runner.UploadWorld) (now : String)
    (s : Runner.RunnerState) :
    (∀ t : Rat, t < 1 →
      Runner.stepRun w now (.panelEvent "CtlButton" t) s
        = Runner.uploadDataRun (w s.uploadCount) s)
    ∧ (∀ t : Rat, 1 ≤ t →
      Runner.stepRun w now (.panelEvent "CtlButton" t) s = ([s], s))
    ∧ (∀ (ty : String) (t : Rat), ¬(ty = "CtlButton" ∧ t < 1) →
      Runner.stepRun w now (.panelEvent ty t) s = ([s], s))
    ∧ (∀ e : Runner.Event,
        (∀ t : Rat, t < 1 → e ≠ .panelEvent "CtlButton" t) →
        ∀ u ∈ (Runner.stepRun w now e s).1,
          u.uploaderRunning = s.uploaderRunning
          ∧ (s.radioRunning = true → u.radioRunning = true)) := by
  have hneg : ∀ (ty : String) (t : Rat), ¬(ty = "CtlButton" ∧ t < 1) →
      Runner.stepRun w now (.panelEvent ty t) s = ([s], s) := by
    intro ty t hc
    show (if ty = "CtlButton" ∧ t < 1
      then Runner.uploadDataRun (w s.uploadCount) s else ([s], s)) = ([s], s)
    rw [if_neg hc]
  refine ⟨?_, ?_, hneg, ?_⟩
  · intro t ht
    show (if ("CtlButton" : String) = "CtlButton" ∧ t < 1
      then Runner.uploadDataRun (w s.uploadCount) s else ([s], s))
      = Runner.uploadDataRun (w s.uploadCount) s
    rw [if_pos ⟨rfl, ht⟩]
  · intro t ht
    exact hneg "CtlButton" t (fun hc => absurd hc.2 (not_lt.mpr ht))
  · intro e he u hm
    cases e with
    | locationFix f => simp [Runner.stepRun] at hm; subst hm; simp
    | networkData sites =>
      cases hl : s.locn with
      | none => simp [Runner.stepRun, hl] at hm; subst hm; simp
      | some l =>
        by_cases hb : s.radioShouldBeRunning = true <;>
        · simp [Runner.stepRun, hl, hb] at hm
          rcases hm with h | h <;> subst h <;> simp
    | panelEvent ty t =>
      by_cases hc : ty = "CtlButton" ∧ t < 1
      · exact absurd (hc.1 ▸ rfl) (he t hc.2)
      · rw [hneg ty t hc] at hm
        simp at hm; subst hm; simp
    | uploadComplete =>
      simp [Runner.stepRun] at hm
      rcases hm with h | h <;> subst h <;> simp

/-- Closed instance of `control_trigger`: a half-second press triggers
the upload sequence. -/
theorem control_trigger_witness :
    Runner.stepRun wOk "t" (.panelEvent "CtlButton" (1 / 2 : Rat))
      (Runner.initState [])
      = Runner.uploadDataRun (wOk 0) (Runner.initState []) :=
  (control_trigger wOk "t" (Runner.initState [])).1 (1 / 2) (by norm_num)

end Cellscan
